import Mathlib

/-!
A verification development for the `external-store` library
(`src/main.tsx`): a synchronous snapshot container (`ExternalStore`)
and an asynchronous task lifecycle built on top of it
(`AsyncExternalStore`), together with the suspension read path
(`wrapSelectorForSuspense`).

The embedding is shallow: JavaScript objects that matter for
`Object.is` checks carry explicit identity numbers drawn from an
allocation counter; the state snapshot of the async store is a record
whose optional fields model presence or absence of the corresponding
runtime properties; `setState` updates are records of optional fields
(a mentioned field overrides, an unmentioned field is carried by the
spread `{...prev, ...next}`); listeners are identified by numbers and
their behaviour during a notification pass is given as data (a list of
subscription operations), so that the live-iteration semantics of a
JavaScript `Set` can be modelled exactly.
-/

namespace ExtStore

/-- The status strings of the `AsyncState` tagged union in `src/main.tsx`. -/
inductive Status where
  | uninitialized
  | pending
  | idle
  | error
deriving DecidableEq

/-- A JavaScript value thrown by a producer: either an `Error` instance
(identified by a code standing for the particular object) or any other
value. -/
inductive JsVal where
  | errObj (e : Nat)
  | other (v : Nat)
deriving DecidableEq

/-- The `Error` value stored in the `error` branch: either the thrown
`Error` used as-is (`cause instanceof Error`), or a fresh
`new Error(..., cause)` wrapping a non-`Error` cause, as in the
`catch` handler of `AsyncExternalStore.setStateAsync`. -/
inductive ErrVal where
  | given (e : Nat)
  | wrapped (cause : Nat)
deriving DecidableEq

/-- The normalization performed by the `catch` handler of
`setStateAsync` (lines 216-222 of `src/main.tsx`). -/
def normalizeThrown : JsVal → ErrVal
  | .errObj e => .given e
  | .other v => .wrapped v

/-- The runtime shape of an `AsyncState<T>` snapshot.  Every one of the
five properties is modelled, with `Option` marking presence of the
`data`, `error` and `promise` properties; `promise` holds the identity
of a deferred handle minted by `promiseWithResolvers`. -/
structure Snap (T : Type) where
  status : Status
  loading : Bool
  refreshing : Bool
  data : Option T
  error : Option ErrVal
  promise : Option Nat
deriving DecidableEq

/-- An update object passed to `setState`: each field is either
mentioned with a value (`some v`, where `v` itself may be the model of
`undefined` for the optional properties) or not mentioned (`none`). -/
structure SnapUpd (T : Type) where
  uStatus : Option Status := none
  uLoading : Option Bool := none
  uRefreshing : Option Bool := none
  uData : Option (Option T) := none
  uError : Option (Option ErrVal) := none
  uPromise : Option (Option Nat) := none
deriving DecidableEq

/-- The object spread `{ ...prev, ...next }` of `ExternalStore.setState`
(line 155 of `src/main.tsx`) on snapshot shapes: a mentioned field of
the update overrides, an unmentioned field is carried from `prev`. -/
def mergeSnap {T : Type} (prev : Snap T) (u : SnapUpd T) : Snap T where
  status := u.uStatus.getD prev.status
  loading := u.uLoading.getD prev.loading
  refreshing := u.uRefreshing.getD prev.refreshing
  data := u.uData.getD prev.data
  error := u.uError.getD prev.error
  promise := u.uPromise.getD prev.promise

/-- A subscription operation a listener may perform while a
notification pass is running: `subscribe` a listener or run an
unsubscribe capability. -/
inductive SubOp where
  | add (g : Nat)
  | remove (g : Nat)
deriving DecidableEq

/-- The state of an iteration of `#notify` over the `Set` of
subscribers: `visited` are the members already yielded by the iterator
and still in the set, `queue` are the members not yet yielded, and
`order` is the log of invocations performed so far (visited members
removed from the set stay in `order` but leave `visited`). -/
structure NotifySt where
  visited : List Nat
  queue : List Nat
  order : List Nat
deriving DecidableEq

/-- Effect of one subscription operation on a running iteration,
following JavaScript `Set` semantics: an added member that is not
already in the set is appended after the cursor and will be visited by
the same pass; a removed member disappears from wherever it is. -/
def applySubOp (s : NotifySt) : SubOp → NotifySt
  | .add g =>
      if g ∈ s.visited ∨ g ∈ s.queue then s
      else { s with queue := s.queue ++ [g] }
  | .remove g =>
      { s with visited := s.visited.erase g, queue := s.queue.erase g }

/-- Apply a listener's subscription operations in order. -/
def applySubOps (s : NotifySt) (ops : List SubOp) : NotifySt :=
  ops.foldl applySubOp s

/-- The loop `for (const fn of this.#subscribers) fn()` of
`ExternalStore.#notify` (lines 159-161 of `src/main.tsx`): yield the
next member of the live set, invoke it, apply its subscription
operations, continue.  `eff` gives each listener's behaviour; `fuel`
bounds the iteration (a listener set that keeps growing loops forever
in JavaScript as well). -/
def notifyLoop (eff : Nat → List SubOp) : Nat → NotifySt → NotifySt
  | 0, s => s
  | fuel + 1, s =>
      match s.queue with
      | [] => s
      | f :: rest =>
          notifyLoop eff fuel
            (applySubOps
              { visited := s.visited ++ [f], queue := rest, order := s.order ++ [f] }
              (eff f))

/-- Run a whole notification pass over the subscriber list. -/
def notifyRun (eff : Nat → List SubOp) (fuel : Nat) (subs : List Nat) : NotifySt :=
  notifyLoop eff fuel { visited := [], queue := subs, order := [] }

/-- The subscriber set left behind by a notification pass. -/
def NotifySt.subsAfter (s : NotifySt) : List Nat :=
  s.visited ++ s.queue

/-- The base `ExternalStore`: the current state object (its field
content together with its identity), the initial state object, an
allocation counter fresh above every identity handed out so far, the
subscriber set (insertion-ordered, deduplicated, listener identities),
and the cumulative log of listener invocations. -/
structure Store (σ : Type) where
  stateFields : σ
  stateId : Nat
  initialFields : σ
  initialId : Nat
  nextId : Nat
  subs : List Nat
  invoked : List Nat
deriving DecidableEq

/-- `ExternalStore.setState` (lines 146-157 of `src/main.tsx`).  The
resolved update is a value of the update type together with its object
identity when it is an existing object (`some` its identity; a fresh
object literal has identity `none`, which can never equal an existing
identity).  If `Object.is(prev, next)` holds, nothing happens;
otherwise the spread of the update over the previous state is
installed as a freshly allocated object and a notification pass runs. -/
def Store.setState {σ υ : Type} (merge : σ → υ → σ) (eff : Nat → List SubOp)
    (fuel : Nat) (upd : σ × Nat → υ × Option Nat) (st : Store σ) : Store σ :=
  let next := upd (st.stateFields, st.stateId)
  if next.2 = some st.stateId then st
  else
    let nr := notifyRun eff fuel st.subs
    { st with
      stateFields := merge st.stateFields next.1
      stateId := st.nextId
      nextId := st.nextId + 1
      subs := nr.subsAfter
      invoked := st.invoked ++ nr.order }

/-- Modelled from the spec: the no-op test as the specification words
it — "Compute `next = \x7b ...current, ...resolvedUpdate \x7d`.  If
`next` is reference-identical to `current`, no-op" — i.e. the merged
object is built first (a fresh allocation) and only then compared by
reference with the current state.  Used for the refinement comparison
with `Store.setState`. -/
def Store.setStateSpecTest {σ υ : Type} (merge : σ → υ → σ) (eff : Nat → List SubOp)
    (fuel : Nat) (upd : σ × Nat → υ × Option Nat) (st : Store σ) : Store σ :=
  let next := upd (st.stateFields, st.stateId)
  let mergedId := st.nextId
  if mergedId = st.stateId then st
  else
    let nr := notifyRun eff fuel st.subs
    { st with
      stateFields := merge st.stateFields next.1
      stateId := mergedId
      nextId := st.nextId + 1
      subs := nr.subsAfter
      invoked := st.invoked ++ nr.order }

/-- `ExternalStore.subscribe` (lines 141-144 of `src/main.tsx`):
`Set.add`, a no-op when the listener is already registered. -/
def Store.subscribeFn {σ : Type} (f : Nat) (st : Store σ) : Store σ :=
  if f ∈ st.subs then st else { st with subs := st.subs ++ [f] }

/-- The unsubscribe capability returned by `subscribe`:
`() => this.#subscribers.delete(fn)`. -/
def Store.unsubscribeFn {σ : Type} (f : Nat) (st : Store σ) : Store σ :=
  { st with subs := st.subs.erase f }

instance {ε α : Type} [DecidableEq ε] [DecidableEq α] : DecidableEq (Except ε α) :=
  fun x y =>
    match x, y with
    | .ok a, .ok b =>
        match decEq a b with
        | isTrue h => isTrue (h ▸ rfl)
        | isFalse h => isFalse (fun hc => h (Except.ok.inj hc))
    | .error a, .error b =>
        match decEq a b with
        | isTrue h => isTrue (h ▸ rfl)
        | isFalse h => isFalse (fun hc => h (Except.error.inj hc))
    | .ok _, .error _ => isFalse (fun hc => Except.noConfusion hc)
    | .error _, .ok _ => isFalse (fun hc => Except.noConfusion hc)

/-- Behaviour of one invocation of a producer passed to
`setStateAsync`: it either throws synchronously while being invoked
(before `Promise.resolve(...)` ever sees a value), or it yields an
eventually settled outcome — fulfilled with a data value or rejected
with a thrown value. -/
inductive ProducerBeh (T : Type) where
  | throwsSync (v : JsVal)
  | settles (r : Except JsVal T)
deriving DecidableEq

/-- A producer function: its behaviour may depend on the previous
snapshot it receives (`update(controller.signal, prevState)`). -/
def Producer (T : Type) := Snap T → ProducerBeh T

/-- The `AsyncExternalStore`: the base container instantiated at
snapshot shapes, plus the current `AbortController` (identified by a
generation number; a controller is aborted exactly when it is no
longer the current one) and a log of the settlement calls made on
deferred promise handles (`promise.resolve` / `promise.reject`). -/
structure AsyncStore (T : Type) extends Store (Snap T) where
  curGen : Option Nat
  settleLog : List (Nat × Except ErrVal T)
deriving DecidableEq

/-- `this.setState(upd)` inside the async store: the update is always a
fresh object literal (identity `none`); observers registered on the
async store are plain listeners that do not touch the subscription set,
so the pass gets exactly enough fuel to visit them all. -/
def setStateA {T : Type} (u : SnapUpd T) (st : AsyncStore T) : AsyncStore T :=
  { st with toStore :=
      Store.setState mergeSnap (fun _ => []) st.subs.length (fun _ => (u, none)) st.toStore }

/-- Allocate a fresh identity (used for `promiseWithResolvers()` and
`new AbortController()`). -/
def allocId {T : Type} (st : AsyncStore T) : Nat × AsyncStore T :=
  (st.nextId, { st with toStore := { st.toStore with nextId := st.nextId + 1 } })

/-- Result of the synchronous part of a `setStateAsync` call: the
mutated store, the value thrown through to the caller when the
producer threw synchronously, and otherwise the in-flight task — its
controller generation together with the outcome it will settle with. -/
structure IssueResult (T : Type) where
  store : AsyncStore T
  thrown : Option JsVal
  task : Option (Nat × Except JsVal T)
deriving DecidableEq

/-- The `switch` block of `AsyncExternalStore.setStateAsync` (lines
190-200 of `src/main.tsx`): install the pending snapshot according to
the previous status — reusing the deferred handle from
`uninitialized`/`pending`, minting a fresh one from `idle`/`error`,
carrying stale data only from `idle`.  Together with
`setStateAsyncIssue` below this is the synchronous prefix of a
`setStateAsync` call; a synchronous throw of the producer escapes to
the caller — `Promise.resolve(update(...))` evaluates its argument
outside any handler — and leaves no in-flight task behind. -/
def issuePendingSnap {T : Type} (st : AsyncStore T) : AsyncStore T :=
  match st.stateFields.status with
  | .uninitialized | .pending =>
      setStateA
        { uStatus := some .pending, uLoading := some true, uRefreshing := some false,
          uPromise := some st.stateFields.promise } st
  | .idle =>
      let a := allocId st
      setStateA
        { uStatus := some .pending, uLoading := some true, uRefreshing := some true,
          uData := some st.stateFields.data, uPromise := some (some a.1) } a.2
  | .error =>
      let a := allocId st
      setStateA
        { uStatus := some .pending, uLoading := some true, uRefreshing := some false,
          uPromise := some (some a.1) } a.2

/-- The controller swap and producer invocation of `setStateAsync`
(lines 202-206): abort the previous controller, mint a new one, invoke
the producer. -/
def setStateAsyncIssue {T : Type} (p : Producer T) (st : AsyncStore T) : IssueResult T :=
  let prevSnap := st.stateFields
  let st1 := issuePendingSnap st
  let g := st1.nextId
  let st2 : AsyncStore T :=
    { st1 with toStore := { st1.toStore with nextId := st1.nextId + 1 }, curGen := some g }
  match p prevSnap with
  | .throwsSync v => { store := st2, thrown := some v, task := none }
  | .settles r => { store := st2, thrown := none, task := some (g, r) }

/-- The continuation of `setStateAsync` (lines 206-226 of
`src/main.tsx`): when the task with generation `g` settles with
outcome `r`, check `controller.signal.aborted` — the controller is
aborted exactly when a later call replaced it as current — and if
still current commit: on fulfilment install the `idle` snapshot and
call `resolve` on whatever deferred handle the new snapshot carries;
on rejection normalize the cause into an `Error`, install the `error`
snapshot and call `reject` likewise.  A superseded completion does
nothing at all. -/
def setStateAsyncComplete {T : Type} (g : Nat) (r : Except JsVal T)
    (st : AsyncStore T) : AsyncStore T :=
  if st.curGen = some g then
    match r with
    | .ok d =>
        let st1 := setStateA
          { uStatus := some .idle, uLoading := some false, uRefreshing := some false,
            uData := some (some d) } st
        match st1.stateFields.promise with
        | some pid => { st1 with settleLog := st1.settleLog ++ [(pid, Except.ok d)] }
        | none => st1
    | .error cause =>
        let e := normalizeThrown cause
        let st1 := setStateA
          { uStatus := some .error, uLoading := some false, uRefreshing := some false,
            uError := some (some e) } st
        match st1.stateFields.promise with
        | some pid => { st1 with settleLog := st1.settleLog ++ [(pid, Except.error e)] }
        | none => st1
  else st

/-- Deliver a list of task completions in the given order. -/
def runCompl {T : Type} (steps : List (Nat × Except JsVal T)) (st : AsyncStore T) :
    AsyncStore T :=
  steps.foldl (fun s x => setStateAsyncComplete x.1 x.2 s) st

/-- The producer of `AsyncExternalStore.hydrate`: `() => state`, a
producer that immediately resolves with the given data. -/
def hydrateProducer {T : Type} (d : T) : Producer T :=
  fun _ => .settles (Except.ok d)

/-- `AsyncExternalStore.hydrate` issues the full lifecycle over the
immediately-resolving producer. -/
def hydrate {T : Type} (d : T) (st : AsyncStore T) : IssueResult T :=
  setStateAsyncIssue (hydrateProducer d) st

/-- The `AsyncExternalStore` constructor (lines 179-185 of
`src/main.tsx`): seeded stores start `idle` with the seed, unseeded
stores start `uninitialized` with a freshly minted deferred handle.
The state object doubles as the initial state object. -/
def mkAsyncStore {T : Type} (seed : Option T) : AsyncStore T :=
  match seed with
  | some d =>
      let s : Snap T :=
        { status := .idle, loading := false, refreshing := false,
          data := some d, error := none, promise := none }
      { stateFields := s, stateId := 0, initialFields := s, initialId := 0,
        nextId := 1, subs := [], invoked := [], curGen := none, settleLog := [] }
  | none =>
      let s : Snap T :=
        { status := .uninitialized, loading := false, refreshing := false,
          data := none, error := none, promise := some 0 }
      { stateFields := s, stateId := 1, initialFields := s, initialId := 1,
        nextId := 2, subs := [], invoked := [], curGen := none, settleLog := [] }

/-- What a wrapped selector does to its caller: return a value, expose
an unsettled deferred result to suspend on, expose a captured failure,
or read a property that is absent at runtime. -/
inductive ReadOutcome (U : Type) where
  | value (u : U)
  | suspendOn (pid : Nat)
  | raiseErr (e : ErrVal)
  | undefAccess
deriving DecidableEq

/-- `wrapSelectorForSuspense` (lines 52-68 of `src/main.tsx`): the
`refreshing` fast path applies the selector to the stale data; then
`uninitialized`/`pending` expose the deferred handle, `error` exposes
the captured failure and `idle` applies the selector. -/
def wrapSelectorForSuspense {T U : Type} (sel : T → U) (s : Snap T) : ReadOutcome U :=
  if s.refreshing then
    match s.data with
    | some d => .value (sel d)
    | none => .undefAccess
  else
    match s.status with
    | .uninitialized | .pending =>
        match s.promise with
        | some pid => .suspendOn pid
        | none => .undefAccess
    | .error =>
        match s.error with
        | some e => .raiseErr e
        | none => .undefAccess
    | .idle =>
        match s.data with
        | some d => .value (sel d)
        | none => .undefAccess

/-- The consumer read path: wrap the selector and apply it to the
current snapshot.  The store is returned unchanged — reading is a pure
transformation. -/
def readForConsumer {T U : Type} (st : AsyncStore T) (sel : T → U) :
    ReadOutcome U × AsyncStore T :=
  (wrapSelectorForSuspense sel st.stateFields, st)

/-! Concrete instances used by counterexamples and witnesses. -/

/-- A producer settling successfully with the given number. -/
def pOk (n : Nat) : Producer Nat := fun _ => .settles (Except.ok n)

/-- A producer whose promise rejects with a non-Error value. -/
def pRej : Producer Nat := fun _ => .settles (Except.error (JsVal.other 42))

/-- A producer that throws synchronously when invoked. -/
def pBoom : Producer Nat := fun _ => .throwsSync (JsVal.other 42)

/-- A store seeded `idle` with data `7` whose first task rejected: the
result of `runTask` with a rejecting producer, followed by the delivery
of the rejection (task generation `3`). -/
def errStoreC3 : AsyncStore Nat :=
  setStateAsyncComplete 3 (Except.error (JsVal.other 42))
    (setStateAsyncIssue pRej (mkAsyncStore (some 7))).store

/-- The same store after a subsequent successful `runTask` (task
generation `7`) commits. -/
def idleStoreC3 : AsyncStore Nat :=
  setStateAsyncComplete 7 (Except.ok 9) (setStateAsyncIssue (pOk 9) errStoreC3).store

/-- A store seeded `idle` with data `7` after two back-to-back `runTask`
calls, neither settled yet. -/
def pendStoreC4 : AsyncStore Nat :=
  (setStateAsyncIssue (pOk 2) (setStateAsyncIssue (pOk 1) (mkAsyncStore (some 7))).store).store

/-- An unseeded store after two back-to-back `runTask` calls (task
generations `3` and `5`), neither settled yet. -/
def st2w : AsyncStore Nat :=
  (setStateAsyncIssue (pOk 9) (setStateAsyncIssue (pOk 1) (mkAsyncStore none)).store).store

/-- The merge function of a base store whose state object has a single
field holding a number: the spread of a full update over the previous
state replaces the field. -/
def mergeNatU (_p u : Nat) : Nat := u

/-- A base store holding `3` with one registered listener (number `0`)
and no notifications delivered yet. -/
def baseStore : Store Nat :=
  { stateFields := 3, stateId := 0, initialFields := 3, initialId := 0,
    nextId := 1, subs := [0], invoked := [] }

/-- Listener behaviour where listener `0` subscribes a new listener `1`
during the notification pass. -/
def eff5 : Nat → List SubOp := fun n => if n = 0 then [SubOp.add 1] else []

/-- The update `(prev) => prev`: it resolves to the previous state
object itself, so its identity is the current state's identity. -/
def updPrev : Nat × Nat → Nat × Option Nat := fun x => (x.1, some x.2)

/-- A `pending (refresh)` snapshot carrying stale data `7`. -/
def snapRefr : Snap Nat :=
  { status := .pending, loading := true, refreshing := true,
    data := some 7, error := none, promise := some 0 }

/-! Helper lemmas. -/

theorem notifyLoop_effFree (fuel : Nat) :
    ∀ (vs q ord : List Nat), q.length ≤ fuel →
      notifyLoop (fun _ => []) fuel ⟨vs, q, ord⟩ = ⟨vs ++ q, [], ord ++ q⟩ := by
  induction fuel with
  | zero =>
      intro vs q ord h
      have hq : q = [] := List.eq_nil_of_length_eq_zero (Nat.le_zero.mp h)
      subst hq
      simp [notifyLoop]
  | succ n ih =>
      intro vs q ord h
      cases q with
      | nil => simp [notifyLoop]
      | cons f rest =>
          have step :
              notifyLoop (fun _ => []) (n + 1) ⟨vs, f :: rest, ord⟩ =
                notifyLoop (fun _ => []) n ⟨vs ++ [f], rest, ord ++ [f]⟩ := rfl
          rw [step, ih (vs ++ [f]) rest (ord ++ [f]) (by simpa using Nat.le_of_succ_le_succ h)]
          simp

theorem notifyRun_effFree (fuel : Nat) (subs : List Nat) (h : subs.length ≤ fuel) :
    notifyRun (fun _ => []) fuel subs = ⟨subs, [], subs⟩ := by
  simpa [notifyRun] using notifyLoop_effFree fuel [] subs [] h

theorem setStateA_eq {T : Type} (u : SnapUpd T) (st : AsyncStore T) :
    setStateA u st =
      { st with toStore := { st.toStore with
          stateFields := mergeSnap st.stateFields u
          stateId := st.nextId
          nextId := st.nextId + 1
          invoked := st.invoked ++ st.subs } } := by
  simp [setStateA, Store.setState, notifyRun_effFree st.subs.length st.subs (Nat.le_refl _),
    NotifySt.subsAfter]

theorem setStateAsyncComplete_stale {T : Type} (g : Nat) (r : Except JsVal T)
    (st : AsyncStore T) (h : st.curGen ≠ some g) :
    setStateAsyncComplete g r st = st := by
  simp [setStateAsyncComplete, h]

theorem setStateAsyncComplete_curGen {T : Type} (g : Nat) (r : Except JsVal T)
    (st : AsyncStore T) :
    (setStateAsyncComplete g r st).curGen = st.curGen := by
  by_cases h : st.curGen = some g
  · cases r <;> simp only [setStateAsyncComplete, h, if_pos] <;> split <;>
      simp [setStateA_eq, h]
  · simp [setStateAsyncComplete_stale g r st h]

theorem setStateAsyncComplete_ok_snap {T : Type} (g : Nat) (d : T)
    (st : AsyncStore T) (h : st.curGen = some g) :
    (setStateAsyncComplete g (Except.ok d) st).stateFields =
      mergeSnap st.stateFields
        { uStatus := some .idle, uLoading := some false, uRefreshing := some false,
          uData := some (some d) } := by
  simp only [setStateAsyncComplete, h, if_pos]
  split <;> simp [setStateA_eq]

theorem setStateAsyncComplete_err_snap {T : Type} (g : Nat) (cause : JsVal)
    (st : AsyncStore T) (h : st.curGen = some g) :
    (setStateAsyncComplete g (Except.error cause) st).stateFields =
      mergeSnap st.stateFields
        { uStatus := some .error, uLoading := some false, uRefreshing := some false,
          uError := some (some (normalizeThrown cause)) } := by
  simp only [setStateAsyncComplete, h, if_pos]
  split <;> simp [setStateA_eq]

theorem runCompl_cons {T : Type} (x : Nat × Except JsVal T)
    (L : List (Nat × Except JsVal T)) (st : AsyncStore T) :
    runCompl (x :: L) st = runCompl L (setStateAsyncComplete x.1 x.2 st) := rfl

theorem runCompl_stale {T : Type} (L : List (Nat × Except JsVal T)) (g : Nat)
    (st : AsyncStore T) (hg : st.curGen = some g) (hL : ∀ x ∈ L, x.1 ≠ g) :
    runCompl L st = st := by
  induction L with
  | nil => rfl
  | cons x L ih =>
      have hx : st.curGen ≠ some x.1 := by
        rw [hg]
        intro hc
        exact hL x (List.mem_cons_self x L) (by injection hc with h; exact h.symm)
      rw [runCompl_cons, setStateAsyncComplete_stale x.1 x.2 st hx]
      exact ih (fun y hy => hL y (List.mem_cons_of_mem x hy))

theorem setStateAsyncIssue_store {T : Type} (p : Producer T) (st : AsyncStore T) :
    (setStateAsyncIssue p st).store =
      { issuePendingSnap st with
        toStore := { (issuePendingSnap st).toStore with
          nextId := (issuePendingSnap st).nextId + 1 }
        curGen := some (issuePendingSnap st).nextId } := by
  cases hp : p st.stateFields <;> simp [setStateAsyncIssue, hp]

theorem setStateAsyncIssue_task {T : Type} (p : Producer T) (st : AsyncStore T)
    (g : Nat) (r : Except JsVal T) (h : (setStateAsyncIssue p st).task = some (g, r)) :
    g = (issuePendingSnap st).nextId ∧ p st.stateFields = .settles r := by
  cases hp : p st.stateFields <;> simp [setStateAsyncIssue, hp] at h
  obtain ⟨h1, h2⟩ := h
  subst h2
  exact ⟨h1.symm, rfl⟩

theorem issuePendingSnap_nextId {T : Type} (st : AsyncStore T) :
    st.nextId < (issuePendingSnap st).nextId := by
  unfold issuePendingSnap
  split <;> simp [setStateA_eq, allocId] <;> omega

/-! Claim theorems. -/

/-- Claim C1: the claim says every failure a producer raises — including
a synchronous throw at invocation time — is caught by `runTask`
(`setStateAsync`), normalized into an Error, recorded in the `error`
branch and never rethrown.  The code refutes the synchronous part:
`Promise.resolve(update(...))` evaluates the producer outside any
handler, so on the unseeded store a synchronously throwing producer
propagates its thrown value to the caller of `runTask` (`thrown` is
populated, no task is in flight) and the store is left stuck in
`pending` with no error recorded.  A producer whose promise rejects is
handled as claimed: nothing is thrown, the rejection is normalized into
a wrapping Error and recorded in the `error` branch. -/
theorem claim1_sync_throw_escapes_runTask :
    (setStateAsyncIssue pBoom (mkAsyncStore none)).thrown = some (JsVal.other 42) ∧
    (setStateAsyncIssue pBoom (mkAsyncStore none)).task = none ∧
    (setStateAsyncIssue pBoom (mkAsyncStore none)).store.stateFields.status = .pending ∧
    (setStateAsyncIssue pBoom (mkAsyncStore none)).store.stateFields.error = none ∧
    (setStateAsyncIssue pRej (mkAsyncStore none)).thrown = none ∧
    (setStateAsyncIssue pRej (mkAsyncStore none)).task
      = some (3, Except.error (JsVal.other 42)) ∧
    (setStateAsyncComplete 3 (Except.error (JsVal.other 42))
        (setStateAsyncIssue pRej (mkAsyncStore none)).store).stateFields.status = .error ∧
    (setStateAsyncComplete 3 (Except.error (JsVal.other 42))
        (setStateAsyncIssue pRej (mkAsyncStore none)).store).stateFields.error
      = some (ErrVal.wrapped 42) :=
  ⟨rfl, rfl, rfl, rfl, rfl, rfl, rfl, rfl⟩

/-- Claim C2: a superseded task never commits — a completion whose
controller generation is no longer current changes nothing (no state
change, no notification, no promise settlement); issuing a new task
always invalidates the current generation; and for overlapping tasks
`t1..tN` with `tN` current, delivering the stale completions in any
order around `tN`'s completion leaves exactly the effect of `tN`'s
completion, whose outcome (here: fulfilment with `d`) determines the
final status and data. -/
theorem claim2_superseded_task_never_commits {T : Type} :
    (∀ (g : Nat) (r : Except JsVal T) (st : AsyncStore T),
        st.curGen ≠ some g → setStateAsyncComplete g r st = st) ∧
    (∀ (p : Producer T) (st : AsyncStore T) (g : Nat),
        st.curGen = some g → g < st.nextId →
        (setStateAsyncIssue p st).store.curGen ≠ some g) ∧
    (∀ (st : AsyncStore T) (gN : Nat) (rN : Except JsVal T)
        (L1 L2 : List (Nat × Except JsVal T)),
        st.curGen = some gN →
        (∀ x ∈ L1, x.1 ≠ gN) → (∀ x ∈ L2, x.1 ≠ gN) →
        runCompl (L1 ++ (gN, rN) :: L2) st = setStateAsyncComplete gN rN st) ∧
    (∀ (st : AsyncStore T) (gN : Nat) (d : T), st.curGen = some gN →
        (setStateAsyncComplete gN (Except.ok d) st).stateFields.status = .idle ∧
        (setStateAsyncComplete gN (Except.ok d) st).stateFields.data = some d) := by
  refine ⟨?_, ?_, ?_, ?_⟩
  · exact fun g r st h => setStateAsyncComplete_stale g r st h
  · intro p st g hg hlt
    have hn := issuePendingSnap_nextId st
    rw [setStateAsyncIssue_store]
    show some (issuePendingSnap st).nextId ≠ some g
    intro hc
    have := Option.some.inj hc
    omega
  · intro st gN rN L1 L2 hg h1 h2
    have e1 : runCompl (L1 ++ (gN, rN) :: L2) st
        = runCompl ((gN, rN) :: L2) (runCompl L1 st) := by
      simp [runCompl, List.foldl_append]
    rw [e1, runCompl_stale L1 gN st hg h1, runCompl_cons]
    exact runCompl_stale L2 gN _
      (by rw [setStateAsyncComplete_curGen]; exact hg) h2
  · intro st gN d hg
    rw [setStateAsyncComplete_ok_snap gN d st hg]
    exact ⟨rfl, rfl⟩

/-- Witness for C2: on the unseeded store with two overlapping tasks
(generations `3` and `5`), delivering the stale completions of task `3`
around the winner leaves exactly task `5`'s commit: `idle` with data
`9`. -/
theorem claim2_witness :
    st2w.curGen = some 5 ∧
    runCompl [(3, Except.error (JsVal.other 1)), (5, Except.ok 9), (3, Except.ok 0)] st2w
      = setStateAsyncComplete 5 (Except.ok 9) st2w ∧
    (setStateAsyncComplete 5 (Except.ok 9) st2w).stateFields.status = .idle ∧
    (setStateAsyncComplete 5 (Except.ok 9) st2w).stateFields.data = some 9 :=
  ⟨rfl,
   (claim2_superseded_task_never_commits (T := Nat)).2.2.1 st2w 5 (Except.ok 9)
     [(3, Except.error (JsVal.other 1))] [(3, Except.ok 0)] rfl (by decide) (by decide),
   ((claim2_superseded_task_never_commits (T := Nat)).2.2.2 st2w 5 9 rfl).1,
   ((claim2_superseded_task_never_commits (T := Nat)).2.2.2 st2w 5 9 rfl).2⟩

/-- Claim C3: the claim says exactly one of data and error is populated
outside `pending`/`uninitialized`, and that a transition to `error`
leaves no data.  The code refutes it: `setState` is a shallow merge and
the `error` update object does not mention `data`, so after a seeded
store's refresh fails the `error` snapshot still carries the stale data
`7`; a subsequent successful task then yields an `idle` snapshot that
carries both data and the old error. -/
theorem claim3_error_snapshot_retains_data :
    errStoreC3.stateFields.status = .error ∧
    errStoreC3.stateFields.error = some (ErrVal.wrapped 42) ∧
    errStoreC3.stateFields.data = some 7 ∧
    errStoreC3.stateFields.data ≠ none ∧
    idleStoreC3.stateFields.status = .idle ∧
    idleStoreC3.stateFields.data = some 9 ∧
    idleStoreC3.stateFields.error = some (ErrVal.wrapped 42) :=
  ⟨rfl, rfl, rfl, by decide, rfl, rfl, rfl⟩

/-- Claim C4: the claim says a `runTask` issued while the status is not
`idle` installs a pending snapshot with `refreshing = false` carrying
no data.  The code refutes the data part: issuing a second `runTask`
while a refresh is pending takes the `pending` branch, whose update
object sets `refreshing: false` but does not mention `data`, so the
shallow merge carries the stale data `7` into the
`pending, refreshing = false` snapshot. -/
theorem claim4_pending_nonrefresh_carries_data :
    (setStateAsyncIssue (pOk 1) (mkAsyncStore (some 7))).store.stateFields.status
      = .pending ∧
    pendStoreC4.stateFields.status = .pending ∧
    pendStoreC4.stateFields.refreshing = false ∧
    pendStoreC4.stateFields.data = some 7 ∧
    pendStoreC4.stateFields.data ≠ none :=
  ⟨rfl, rfl, rfl, rfl, by decide⟩

/-- Counterexample to C5: the claim says the listeners invoked by a
notification pass are exactly those registered when the pass begins.
On a store whose only listener `0` subscribes a fresh listener `1`
during the pass, the pass invokes `[0, 1]` — the `Set` iterator of
`#notify` visits members added during iteration — although only `[0]`
was registered at pass start. -/
theorem claim5_counterexample :
    baseStore.subs = [0] ∧ baseStore.invoked = [] ∧
    (Store.setState mergeNatU eff5 5 (fun _ => (1, none)) baseStore).invoked = [0, 1] ∧
    ([0, 1] : List Nat) ≠ [0] :=
  ⟨rfl, rfl, rfl, by decide⟩

/-- Claim C5 (amended): `#notify` iterates the live listener set — one
step of the pass invokes the head of the queue and then applies that
listener's subscription operations before continuing, so listeners
registered during the pass can be invoked by it; when no listener
changes the subscription set during the pass, the listeners invoked are
exactly those registered at pass start, synchronously in registration
order, with the subscriber set unchanged, and the pass completes before
the `setState` call returns. -/
theorem claim5_live_iteration_notify {σ υ : Type} (merge : σ → υ → σ)
    (upd : σ × Nat → υ × Option Nat) (st : Store σ)
    (h : (upd (st.stateFields, st.stateId)).2 ≠ some st.stateId) :
    (∀ (eff : Nat → List SubOp) (fuel : Nat) (vs rest ord : List Nat) (f : Nat),
        notifyLoop eff (fuel + 1) ⟨vs, f :: rest, ord⟩ =
          notifyLoop eff fuel
            (applySubOps ⟨vs ++ [f], rest, ord ++ [f]⟩ (eff f))) ∧
    (Store.setState merge (fun _ => []) st.subs.length upd st).invoked
      = st.invoked ++ st.subs ∧
    (Store.setState merge (fun _ => []) st.subs.length upd st).subs = st.subs := by
  refine ⟨fun eff fuel vs rest ord f => rfl, ?_⟩
  simp [Store.setState, h, notifyRun_effFree st.subs.length st.subs (Nat.le_refl _),
    NotifySt.subsAfter]

/-- Witness for C5 (amended): on the one-listener store with an update
resolving to a fresh object, the pass invokes exactly listener `0`. -/
theorem claim5_witness :
    ((fun (_x : Nat × Nat) => ((1 : Nat), (none : Option Nat)))
        (baseStore.stateFields, baseStore.stateId)).2 ≠ some baseStore.stateId ∧
    (Store.setState mergeNatU (fun _ => []) baseStore.subs.length
        (fun _ => (1, none)) baseStore).invoked
      = baseStore.invoked ++ baseStore.subs ∧
    (Store.setState mergeNatU (fun _ => []) baseStore.subs.length
        (fun _ => (1, none)) baseStore).subs = baseStore.subs :=
  ⟨by decide,
   (claim5_live_iteration_notify mergeNatU (fun _ => (1, none)) baseStore (by decide)).2.1,
   (claim5_live_iteration_notify mergeNatU (fun _ => (1, none)) baseStore (by decide)).2.2⟩

/-- Claim C6: `wrapSelectorForSuspense` applied to a snapshot returns
the selector of the stale data when `refreshing` is set; otherwise it
exposes the deferred handle on `uninitialized`/`pending`, the captured
error on `error`, and the selector of the data on `idle`; the read path
never mutates the store and applied twice to the same snapshot yields
the same outcome. -/
theorem claim6_read_path_cases {T U : Type} (sel : T → U) :
    (∀ (s : Snap T) (d : T), s.refreshing = true → s.data = some d →
        wrapSelectorForSuspense sel s = .value (sel d)) ∧
    (∀ (s : Snap T) (pid : Nat), s.refreshing = false →
        (s.status = .uninitialized ∨ s.status = .pending) → s.promise = some pid →
        wrapSelectorForSuspense sel s = .suspendOn pid) ∧
    (∀ (s : Snap T) (e : ErrVal), s.refreshing = false → s.status = .error →
        s.error = some e → wrapSelectorForSuspense sel s = .raiseErr e) ∧
    (∀ (s : Snap T) (d : T), s.refreshing = false → s.status = .idle →
        s.data = some d → wrapSelectorForSuspense sel s = .value (sel d)) ∧
    (∀ (st : AsyncStore T), (readForConsumer st sel).2 = st) ∧
    (∀ (st : AsyncStore T),
        readForConsumer (readForConsumer st sel).2 sel = readForConsumer st sel) := by
  refine ⟨?_, ?_, ?_, ?_, fun st => rfl, fun st => rfl⟩
  · intro s d h1 h2; simp [wrapSelectorForSuspense, h1, h2]
  · intro s pid h1 h2 h3
    rcases h2 with h | h <;> simp [wrapSelectorForSuspense, h1, h, h3]
  · intro s e h1 h2 h3; simp [wrapSelectorForSuspense, h1, h2, h3]
  · intro s d h1 h2 h3; simp [wrapSelectorForSuspense, h1, h2, h3]

/-- Witness for C6: on a `pending (refresh)` snapshot with stale data
`7`, the wrapped successor selector returns `8` without suspending. -/
theorem claim6_witness :
    snapRefr.refreshing = true ∧ snapRefr.data = some 7 ∧
    wrapSelectorForSuspense Nat.succ snapRefr = .value 8 :=
  ⟨rfl, rfl, (claim6_read_path_cases Nat.succ).1 snapRefr 7 rfl rfl⟩

/-- Claim C7: calling `runTask` while the status is `idle` with data `d`
synchronously installs a pending snapshot with `loading = true`,
`refreshing = true` and the data field passed through unchanged (the
update object's `data` property is `this.state.data` itself, so the
reference is identical). -/
theorem claim7_refresh_preserves_stale_data {T : Type} (st : AsyncStore T) (d : T)
    (p : Producer T) (h1 : st.stateFields.status = .idle)
    (h2 : st.stateFields.data = some d) :
    (setStateAsyncIssue p st).store.stateFields.status = .pending ∧
    (setStateAsyncIssue p st).store.stateFields.loading = true ∧
    (setStateAsyncIssue p st).store.stateFields.refreshing = true ∧
    (setStateAsyncIssue p st).store.stateFields.data = some d := by
  rw [setStateAsyncIssue_store]
  show (issuePendingSnap st).stateFields.status = .pending ∧
    (issuePendingSnap st).stateFields.loading = true ∧
    (issuePendingSnap st).stateFields.refreshing = true ∧
    (issuePendingSnap st).stateFields.data = some d
  simp [issuePendingSnap, h1, h2, setStateA_eq, mergeSnap, allocId]

/-- Witness for C7: the store seeded `idle` with `5` transitions to a
refreshing pending snapshot still holding `5`. -/
theorem claim7_witness :
    (mkAsyncStore (some 5)).stateFields.status = .idle ∧
    (mkAsyncStore (some 5)).stateFields.data = some 5 ∧
    ((setStateAsyncIssue (pOk 1) (mkAsyncStore (some 5))).store.stateFields.status
        = .pending ∧
      (setStateAsyncIssue (pOk 1) (mkAsyncStore (some 5))).store.stateFields.loading
        = true ∧
      (setStateAsyncIssue (pOk 1) (mkAsyncStore (some 5))).store.stateFields.refreshing
        = true ∧
      (setStateAsyncIssue (pOk 1) (mkAsyncStore (some 5))).store.stateFields.data
        = some 5) :=
  ⟨rfl, rfl, claim7_refresh_preserves_stale_data (mkAsyncStore (some 5)) 5 (pOk 1) rfl rfl⟩

/-- Counterexample to C8: the claim identifies the code's no-op test
with the specification's — compute the merged object and compare it by
reference with the current state.  At the update `(prev) => prev` the
two disagree: the code compares the resolved update before merging and
no-ops (state, identity and notification log all unchanged), whereas
the spec-described test compares the freshly allocated merged object,
which can never equal the current one, so that variant installs a new
state object and notifies listener `0`. -/
theorem claim8_counterexample :
    Store.setState mergeNatU (fun _ => []) 1 updPrev baseStore = baseStore ∧
    baseStore.invoked = [] ∧
    (Store.setStateSpecTest mergeNatU (fun _ => []) 1 updPrev baseStore).invoked = [0] ∧
    (Store.setStateSpecTest mergeNatU (fun _ => []) 1 updPrev baseStore).stateId = 1 ∧
    baseStore.stateId = 0 :=
  ⟨rfl, rfl, rfl, rfl, rfl⟩

/-- Claim C8 (amended): `setState` is a no-op — no new state installed,
no listener notified — exactly when the value the update resolves to is
reference-identical to the current state, the comparison being made on
the resolved update itself before merging; otherwise the merged object
is installed under a fresh identity and the notification pass runs.
The spec-worded variant, which compares the freshly merged object with
the current state, never reports a no-op (the spread allocates), so it
installs and notifies on every call. -/
theorem claim8_noop_test_before_merge {σ υ : Type} (merge : σ → υ → σ)
    (eff : Nat → List SubOp) (fuel : Nat) (upd : σ × Nat → υ × Option Nat)
    (st : Store σ) :
    ((upd (st.stateFields, st.stateId)).2 = some st.stateId →
        Store.setState merge eff fuel upd st = st) ∧
    ((upd (st.stateFields, st.stateId)).2 ≠ some st.stateId →
        (Store.setState merge eff fuel upd st).stateFields
          = merge st.stateFields (upd (st.stateFields, st.stateId)).1 ∧
        (Store.setState merge eff fuel upd st).stateId = st.nextId ∧
        (Store.setState merge eff fuel upd st).invoked
          = st.invoked ++ (notifyRun eff fuel st.subs).order) ∧
    (st.stateId < st.nextId →
        (Store.setStateSpecTest merge eff fuel upd st).stateId = st.nextId ∧
        (Store.setStateSpecTest merge eff fuel upd st).stateId ≠ st.stateId ∧
        (Store.setStateSpecTest merge eff fuel upd st).invoked
          = st.invoked ++ (notifyRun eff fuel st.subs).order) := by
  refine ⟨?_, ?_, ?_⟩
  · intro h; simp [Store.setState, h]
  · intro h; simp [Store.setState, h]
  · intro h
    have hne : st.nextId ≠ st.stateId := by omega
    refine ⟨by simp [Store.setStateSpecTest, hne], ?_,
      by simp [Store.setStateSpecTest, hne]⟩
    simp [Store.setStateSpecTest, hne]

/-- Witness for C8 (amended): at the update resolving to the current
state object, `setState` on the one-listener store is a no-op. -/
theorem claim8_witness :
    (updPrev (baseStore.stateFields, baseStore.stateId)).2 = some baseStore.stateId ∧
    Store.setState mergeNatU (fun _ => []) 1 updPrev baseStore = baseStore ∧
    baseStore.stateId < baseStore.nextId ∧
    (Store.setStateSpecTest mergeNatU (fun _ => []) 1 updPrev baseStore).stateId
      = baseStore.nextId :=
  ⟨rfl,
   (claim8_noop_test_before_merge mergeNatU (fun _ => []) 1 updPrev baseStore).1 rfl,
   by decide,
   ((claim8_noop_test_before_merge mergeNatU (fun _ => []) 1 updPrev baseStore).2.2
     (by decide)).1⟩

/-- Claim C9: every state transition is a shallow merge into the
previous snapshot — each of the six snapshot fields is carried
unchanged whenever the update object does not mention it — and in
particular after a first load settles successfully from
`uninitialized`, the deferred promise handle minted for that cycle is
still present on the resulting `idle` snapshot. -/
theorem claim9_shallow_merge_frame {T : Type} :
    (∀ (prev : Snap T) (u : SnapUpd T),
      (u.uStatus = none → (mergeSnap prev u).status = prev.status) ∧
      (u.uLoading = none → (mergeSnap prev u).loading = prev.loading) ∧
      (u.uRefreshing = none → (mergeSnap prev u).refreshing = prev.refreshing) ∧
      (u.uData = none → (mergeSnap prev u).data = prev.data) ∧
      (u.uError = none → (mergeSnap prev u).error = prev.error) ∧
      (u.uPromise = none → (mergeSnap prev u).promise = prev.promise)) ∧
    (∀ (st : AsyncStore T) (p : Producer T) (pid g : Nat) (d : T),
      st.stateFields.status = .uninitialized →
      st.stateFields.promise = some pid →
      (setStateAsyncIssue p st).task = some (g, Except.ok d) →
      (setStateAsyncComplete g (Except.ok d)
          (setStateAsyncIssue p st).store).stateFields.status = .idle ∧
      (setStateAsyncComplete g (Except.ok d)
          (setStateAsyncIssue p st).store).stateFields.data = some d ∧
      (setStateAsyncComplete g (Except.ok d)
          (setStateAsyncIssue p st).store).stateFields.promise = some pid) := by
  constructor
  · intro prev u
    refine ⟨?_, ?_, ?_, ?_, ?_, ?_⟩ <;> (intro h; simp [mergeSnap, h])
  · intro st p pid g d hs hp htask
    obtain ⟨hgeq, _⟩ := setStateAsyncIssue_task p st g _ htask
    subst hgeq
    have hcur : (setStateAsyncIssue p st).store.curGen
        = some (issuePendingSnap st).nextId := by
      rw [setStateAsyncIssue_store]
    rw [setStateAsyncComplete_ok_snap _ _ _ hcur]
    have hsf : (setStateAsyncIssue p st).store.stateFields
        = (issuePendingSnap st).stateFields := by
      rw [setStateAsyncIssue_store]
    rw [hsf]
    have hpend : (issuePendingSnap st).stateFields
        = mergeSnap st.stateFields
          { uStatus := some .pending, uLoading := some true, uRefreshing := some false,
            uPromise := some st.stateFields.promise } := by
      simp [issuePendingSnap, hs, setStateA_eq]
    rw [hpend]
    simp [mergeSnap, hp]

/-- Witness for C9: on the unseeded store (deferred handle `0`), the
first load `runTask` (task generation `3`) commits to `idle` with data
`5` and the snapshot still carries the handle `0`. -/
theorem claim9_witness :
    (mkAsyncStore none : AsyncStore Nat).stateFields.status = .uninitialized ∧
    (mkAsyncStore none : AsyncStore Nat).stateFields.promise = some 0 ∧
    (setStateAsyncIssue (pOk 5) (mkAsyncStore none)).task = some (3, Except.ok 5) ∧
    ((setStateAsyncComplete 3 (Except.ok 5)
        (setStateAsyncIssue (pOk 5) (mkAsyncStore none)).store).stateFields.status
        = .idle ∧
      (setStateAsyncComplete 3 (Except.ok 5)
          (setStateAsyncIssue (pOk 5) (mkAsyncStore none)).store).stateFields.data
        = some 5 ∧
      (setStateAsyncComplete 3 (Except.ok 5)
          (setStateAsyncIssue (pOk 5) (mkAsyncStore none)).store).stateFields.promise
        = some 0) :=
  ⟨rfl, rfl, rfl,
   (claim9_shallow_merge_frame (T := Nat)).2 (mkAsyncStore none) (pOk 5) 0 3 5 rfl rfl rfl⟩

/-- Claim C10: subscribing an already-registered listener adds no second
registration (the `Set` deduplicates), a listener present in a
duplicate-free subscriber set is invoked exactly once per notification
pass, and one call to the unsubscribe capability removes the listener
entirely while further calls (or calls when the listener is absent)
change nothing. -/
theorem claim10_subscribe_dedup_unsubscribe_idem {σ : Type} (st : Store σ) (f : Nat)
    (hnd : st.subs.Nodup) :
    Store.subscribeFn f (Store.subscribeFn f st) = Store.subscribeFn f st ∧
    (f ∈ st.subs →
        (notifyRun (fun _ => []) st.subs.length st.subs).order.count f = 1) ∧
    f ∉ (Store.unsubscribeFn f st).subs ∧
    Store.unsubscribeFn f (Store.unsubscribeFn f st) = Store.unsubscribeFn f st ∧
    (f ∉ st.subs → Store.unsubscribeFn f st = st) := by
  refine ⟨?_, ?_, ?_, ?_, ?_⟩
  · by_cases hf : f ∈ st.subs
    · simp [Store.subscribeFn, hf]
    · simp [Store.subscribeFn, hf]
  · intro hm
    rw [notifyRun_effFree st.subs.length st.subs (Nat.le_refl _)]
    exact List.count_eq_one_of_mem hnd hm
  · simpa [Store.unsubscribeFn] using hnd.not_mem_erase
  · have hq : f ∉ st.subs.erase f := hnd.not_mem_erase
    simp [Store.unsubscribeFn, List.erase_of_not_mem hq]
  · intro hm
    simp [Store.unsubscribeFn, List.erase_of_not_mem hm]

/-- Witness for C10: on the one-listener store, double subscription of
listener `0` collapses, the pass invokes it once, and unsubscribing
removes it. -/
theorem claim10_witness :
    baseStore.subs.Nodup ∧ 0 ∈ baseStore.subs ∧
    Store.subscribeFn 0 (Store.subscribeFn 0 baseStore) = Store.subscribeFn 0 baseStore ∧
    (notifyRun (fun _ => []) baseStore.subs.length baseStore.subs).order.count 0 = 1 ∧
    0 ∉ (Store.unsubscribeFn 0 baseStore).subs :=
  ⟨by decide, by decide,
   (claim10_subscribe_dedup_unsubscribe_idem baseStore 0 (by decide)).1,
   (claim10_subscribe_dedup_unsubscribe_idem baseStore 0 (by decide)).2.1 (by decide),
   (claim10_subscribe_dedup_unsubscribe_idem baseStore 0 (by decide)).2.2.1⟩

end ExtStore
